import Mathlib

/-!
Verification of the payment orchestration service core against its
natural-language specification.  The TypeScript source is shallowly embedded:
mutable aggregates become immutable structures with explicit update functions,
async use cases become state-passing functions returning `Except`, the Redis
cache becomes an association list threaded through the idempotency engine,
`Date.now()` and `uuidv4()` become explicit parameters, and JS `throw` becomes
`Except.error`.
-/

namespace PaymentSrv

/-- Payment lifecycle status, from `enum PaymentStatus` in
`domain/entities/payments`. -/
inductive PaymentStatus where
  | pending
  | success
  | failed
  | resolved
  | cancelled
  | expired
deriving DecidableEq

/-- Payment provider tag, from `enum PaymentProvider`. -/
inductive PaymentProvider where
  | stripe
  | paypal
  | razorpay
deriving DecidableEq

/-- Provider session status, from `enum ProviderSessionStatus` in
`domain/entities/payment-provider-sesssion.entity`. -/
inductive ProviderSessionStatus where
  | created
  | pendingApproval
  | approved
  | captured
  | failed
deriving DecidableEq

/-- The string value of each payment status, as in the TypeScript enum. -/
def statusToString : PaymentStatus → String
  | .pending => "pending"
  | .success => "success"
  | .failed => "failed"
  | .resolved => "resolved"
  | .cancelled => "cancelled"
  | .expired => "expired"

/-- The string value of each provider, as in the TypeScript enum. -/
def providerToString : PaymentProvider → String
  | .stripe => "stripe"
  | .paypal => "paypal"
  | .razorpay => "razorpay"

/-- Errors thrown by the embedded use cases.  `inProgress` models
`IdempotencyException`, `orderNotFound` models `OrderNotFoundException`,
`notFound` models `NotFoundException`, `badRequest` models
`BadRequestException`, `rpcError` models `RpcException`. -/
inductive UcError where
  | inProgress
  | orderNotFound (msg : String)
  | notFound (msg : String)
  | badRequest (msg : String)
  | rpcError (msg : String)
deriving DecidableEq

deriving instance DecidableEq for Except

/-- The `Money` value object (`domain/value-objects/money`): a minor-unit
integer amount plus a currency code. -/
structure Money where
  amount : Int
  currency : String
deriving DecidableEq

/-- Currencies accepted by `Money.validate`. -/
def moneyValidCurrencies : List String := ["USD", "EUR", "GBP", "INR"]

/-- The `Money` constructor with its `validate` checks: negative amounts and
unknown currencies are rejected; the stored currency is upper-cased. -/
def moneyMk (amount : Int) (currency : String) : Except String Money :=
  if amount < 0 then
    .error "Amount cannot be negative"
  else if moneyValidCurrencies.contains currency.toUpper = false then
    .error "Currency must be a valid ISO 4217 code"
  else
    .ok { amount := amount, currency := currency.toUpper }

/-- A provider session (`PaymentProviderSession`), one attempt at charging a
payment through a provider.  Timestamps are `Nat` milliseconds; the opaque
`metadata` and the refund link are omitted because no claim touches them. -/
structure PaymentProviderSession where
  id : String
  paymentId : String
  provider : PaymentProvider
  providerOrderId : Option String := none
  providerPaymentId : Option String := none
  providerAmount : Int
  providerCurrency : String
  fxRate : Rat
  status : ProviderSessionStatus := .created
  createdAt : Nat
  updatedAt : Nat
deriving DecidableEq

/-- `PaymentProviderSession.updateStatus`: sets the status and stamps
`updatedAt`. -/
def sessionUpdateStatus (now : Nat) (st : ProviderSessionStatus)
    (s : PaymentProviderSession) : PaymentProviderSession :=
  { s with status := st, updatedAt := now }

/-- The `Payment` aggregate root. -/
structure Payment where
  id : String
  userId : String
  orderId : String
  amount : Money
  status : PaymentStatus
  idempotencyKey : String
  providerOrderId : Option String := none
  sessions : List PaymentProviderSession := []
  expiresAt : Nat
  createdAt : Nat
  updatedAt : Nat
deriving DecidableEq

/-- `Payment.create`: the static factory plus the private constructor and its
`validate` call.  `uuid` stands in for `uuidv4()` and `now` for `new Date()`.
JS string truthiness makes the required-field check reject exactly the empty
string. -/
def paymentCreate (uuid : String) (now : Nat) (userId orderId : String)
    (amount : Money) (idempotencyKey : String) (expiresAt : Nat) :
    Except String Payment :=
  if userId = "" ∨ orderId = "" then
    .error "User ID and Order ID are required"
  else if amount.amount ≤ 0 then
    .error "Amount must be greater than zero"
  else
    .ok { id := uuid, userId := userId, orderId := orderId, amount := amount,
          status := .pending, idempotencyKey := idempotencyKey,
          providerOrderId := none, sessions := [], expiresAt := expiresAt,
          createdAt := now, updatedAt := now }

/-- The `ALLOWED_PAYMENT_TRANSITIONS` table from `domain/entities/payments`. -/
def allowedTransition : PaymentStatus → PaymentStatus → Bool
  | .pending, .resolved => true
  | .pending, .cancelled => true
  | .pending, .expired => true
  | .pending, .failed => true
  | .pending, .success => true
  | .resolved, .failed => true
  | .resolved, .success => true
  | _, _ => false

/-- `Payment.isTerminalState` expressed on the status alone. -/
def isTerminalStatus (s : PaymentStatus) : Bool :=
  s == .success || s == .failed || s == .cancelled || s == .expired

/-- `Payment.isTerminalState`. -/
def isTerminalState (p : Payment) : Bool :=
  isTerminalStatus p.status

/-- `Payment._transitionTo`: guarded by the transition table; on a forbidden
edge it throws `BadRequestException` with the invalid-transition message, else
it sets the status and stamps `updatedAt`. -/
def transitionTo (now : Nat) (p : Payment) (next : PaymentStatus) :
    Except UcError Payment :=
  if allowedTransition p.status next then
    .ok { p with status := next, updatedAt := now }
  else
    .error (.badRequest ("Invalid status transition from "
      ++ statusToString p.status ++ " to " ++ statusToString next))

/-- `Payment.markResolved`. -/
def markResolved (now : Nat) (p : Payment) : Except UcError Payment :=
  transitionTo now p .resolved

/-- `Payment.markSucceed`. -/
def markSucceed (now : Nat) (p : Payment) : Except UcError Payment :=
  transitionTo now p .success

/-- `Payment.markFailed`. -/
def markFailed (now : Nat) (p : Payment) : Except UcError Payment :=
  transitionTo now p .failed

/-- `Payment.markCancel`: transition to CANCELLED, then record the provider
order id. -/
def markCancel (now : Nat) (providerOrderId : String) (p : Payment) :
    Except UcError Payment :=
  (transitionTo now p .cancelled).map
    (fun q => { q with providerOrderId := some providerOrderId })

/-- `Payment.markExpired`. -/
def markExpired (now : Nat) (p : Payment) : Except UcError Payment :=
  transitionTo now p .expired

/-- `Payment.getProviderSessionById`: looks a session up by the session's own
id (note: the use cases pass a provider order id here). -/
def getProviderSessionById (sessionId : String) (p : Payment) :
    Option PaymentProviderSession :=
  p.sessions.find? (fun s => s.id == sessionId)

/-- `Payment.getSessionByProviderSessionId`: looks a session up by its
provider-assigned order id. -/
def getSessionByProviderSessionId (providerSessionId : String) (p : Payment) :
    Option PaymentProviderSession :=
  p.sessions.find? (fun s => s.providerOrderId == some providerSessionId)

/-- Replace the first list element satisfying `pred` by its image under `f`.
This models TypeScript mutating, through the reference returned by `find`,
the first matching session in place. -/
def updateFirstBy {α : Type} (pred : α → Bool) (f : α → α) : List α → List α
  | [] => []
  | a :: rest => if pred a then f a :: rest else a :: updateFirstBy pred f rest

/-- `payment.getProviderSessionById(x); session?.updateStatus(st)`: update (in
place) the status of the first session whose own id equals `sessionId`; when
none matches nothing changes. -/
def updateSessionStatusById (sessionId : String) (st : ProviderSessionStatus)
    (now : Nat) (p : Payment) : Payment :=
  { p with sessions :=
      (updateFirstBy (fun s => s.id == sessionId) (sessionUpdateStatus now st)
        p.sessions) }

/-- `payment.getSessionByProviderSessionId(x); session?.updateStatus(st)`. -/
def updateSessionStatusByPoid (providerOrderId : String)
    (st : ProviderSessionStatus) (now : Nat) (p : Payment) : Payment :=
  { p with sessions :=
      (updateFirstBy (fun s => s.providerOrderId == some providerOrderId)
        (sessionUpdateStatus now st) p.sessions) }

/-- `paymentRepository.findByProviderOrderId` over an in-memory store. -/
def findByProviderOrderId (providerOrderId : String) (repo : List Payment) :
    Option Payment :=
  repo.find? (fun p => p.providerOrderId == some providerOrderId)

/-- `paymentRepository.update`: persist the aggregate by id. -/
def repoUpdate (p : Payment) (repo : List Payment) : List Payment :=
  repo.map (fun q => if q.id == p.id then p else q)

/-- Payload of a lifecycle bus event, as built by the use cases. -/
structure EventPayload where
  paymentId : String
  orderId : String
  provider : PaymentProvider
  userId : String
  providerOrderId : Option String
  paymentStatus : PaymentStatus
deriving DecidableEq

/-- The bus event envelope.  `source` is optional because one publisher in the
source omits it. -/
structure EventEnvelope where
  eventId : String
  eventType : String
  source : Option String := none
  timestamp : Nat
  payload : EventPayload
deriving DecidableEq

/-- A message handed to `kafkaProducer.produce`: topic, partition key and
envelope. -/
structure ProducedMessage where
  topic : String
  key : String
  value : EventEnvelope
deriving DecidableEq

/-- `SuccessPaymentUseCase.execute`: load the payment by provider order id;
reject unless the status is PENDING or RESOLVED; update (by session id) the
matching session to FAILED; transition to SUCCESS; persist; publish
`OrderPaymentSuccessEvent`.  Returns the persisted store and the published
messages; `Except.error` models a thrown exception (in which case nothing is
persisted or published). -/
def successPaymentExecute (uuid : String) (now : Nat)
    (provider : PaymentProvider) (providerOrderId : String)
    (repo : List Payment) :
    Except UcError (List Payment × List ProducedMessage) :=
  match findByProviderOrderId providerOrderId repo with
  | none => .error (.orderNotFound
      ("Provider Order not found with Id " ++ providerOrderId))
  | some payment =>
    if payment.status ≠ .resolved ∧ payment.status ≠ .pending then
      .error (.badRequest "Cannot mark success payment in current status")
    else
      let p1 := updateSessionStatusById providerOrderId .failed now payment
      match markSucceed now p1 with
      | .error e => .error e
      | .ok p2 =>
        .ok (repoUpdate p2 repo,
          [{ topic := "payment.order.succeeded.v1", key := p2.userId,
             value :=
               { eventId := uuid, eventType := "OrderPaymentSuccessEvent",
                 source := some "payment-service", timestamp := now,
                 payload :=
                   { paymentId := p2.id, orderId := p2.orderId,
                     provider := provider, userId := p2.userId,
                     providerOrderId := p2.providerOrderId,
                     paymentStatus := p2.status } } }])

/-- The value returned to the caller by `CancelPaymentUseCase`. -/
structure CancelResponse where
  paymentId : String
  providerOrderId : Option String
  status : PaymentStatus
deriving DecidableEq

/-- The idempotency-guarded body of `CancelPaymentUseCase.execute`: load the
payment by provider order id; require status PENDING; call the provider
adapter (its reported success is the `cancelSuccess` argument; a `false`
answer throws `RpcException`); update (by session id) the matching session to
FAILED; `markCancel`; persist; publish the `OrderPaymentFailedEvent` envelope
exactly as the source builds it - eventId, eventType, timestamp and payload,
with no `source` field. -/
def cancelPaymentExecute (uuid : String) (now : Nat)
    (provider : PaymentProvider) (providerOrderId : String)
    (cancelSuccess : Bool) (repo : List Payment) :
    Except UcError (List Payment × List ProducedMessage × CancelResponse) :=
  match findByProviderOrderId providerOrderId repo with
  | none => .error (.orderNotFound
      ("Provider Order not found with Id " ++ providerOrderId))
  | some payment =>
    if payment.status ≠ .pending then
      .error (.badRequest "Cannot cancel payment in current status")
    else if cancelSuccess = false then
      .error (.rpcError "Something went wrong, cannot mark payment as failed")
    else
      let p1 := updateSessionStatusById providerOrderId .failed now payment
      match markCancel now providerOrderId p1 with
      | .error e => .error e
      | .ok p2 =>
        .ok (repoUpdate p2 repo,
          [{ topic := "payment.order.failed.v1", key := p2.userId,
             value :=
               { eventId := uuid, eventType := "OrderPaymentFailedEvent",
                 source := none, timestamp := now,
                 payload :=
                   { paymentId := p2.id, orderId := p2.orderId,
                     provider := provider, userId := p2.userId,
                     providerOrderId := p2.providerOrderId,
                     paymentStatus := p2.status } } }],
          { paymentId := p2.id, providerOrderId := p2.providerOrderId,
            status := p2.status })

/-- What a provider adapter's `resolvePayment` reports back. -/
structure ResolveResponse where
  providerStatus : PaymentStatus
  isVerified : Bool
deriving DecidableEq

/-- The value the resolve use case returns to the caller. -/
structure ResolveReturn where
  providerStatus : PaymentStatus
  isVerified : Bool
  paymentId : String
  orderId : String
  provider : PaymentProvider
deriving DecidableEq

/-- `RazorpayPaymentStrategy.resolvePayment`: recompute the HMAC-SHA256 hex
digest of `orderId|paymentId` with the webhook secret and compare it with the
submitted signature.  The digest function is an uninterpreted parameter
`hmacSha256Hex secret message`.  A mismatch is reported, not thrown. -/
def razorpayResolvePayment (hmacSha256Hex : String → String → String)
    (secret orderId paymentId signature : String) : ResolveResponse :=
  let generated := hmacSha256Hex secret (orderId ++ "|" ++ paymentId)
  let isVerified := generated == signature
  { providerStatus := if isVerified then .success else .failed,
    isVerified := isVerified }

/-- The body of `ResolvePaymentUseCase.execute` (inside the idempotency
wrapper, after the adapter call): load the payment by provider order id;
update (by provider order id) the matching session to CAPTURED regardless of
the verification result; if the payment is not terminal call `markResolved`;
persist; return `{providerStatus, isVerified, paymentId, orderId, provider}`.
No bus event is published here. -/
def resolveCallback (now : Nat) (provider : PaymentProvider)
    (resolveResult : ResolveResponse) (providerOrderId : String)
    (repo : List Payment) :
    Except UcError (List Payment × ResolveReturn) :=
  match findByProviderOrderId providerOrderId repo with
  | none => .error (.notFound ("Payment not found with Id " ++ providerOrderId))
  | some payment =>
    let p1 := updateSessionStatusByPoid providerOrderId .captured now payment
    match (if isTerminalState p1 then .ok p1 else markResolved now p1 :
        Except UcError Payment) with
    | .error e => .error e
    | .ok p2 =>
      .ok (repoUpdate p2 repo,
        { providerStatus := resolveResult.providerStatus,
          isVerified := resolveResult.isVerified,
          paymentId := p2.id, orderId := p2.orderId, provider := provider })

/-- One Redis entry: key, string value and remaining time-to-live in
milliseconds. -/
structure REntry where
  key : String
  value : String
  ttlMs : Nat
deriving DecidableEq

/-- `redis.get` restricted to the entry. -/
def rgetEntry (k : String) (st : List REntry) : Option REntry :=
  st.find? (fun e => e.key == k)

/-- `redis.get`: the stored string, when the key is present. -/
def rget (k : String) (st : List REntry) : Option String :=
  (rgetEntry k st).map (fun e => e.value)

/-- `redis.set(key, value, EX, ttlSec)`: plain set with an expiry in seconds,
overwriting any previous entry for the key. -/
def rsetEx (k v : String) (ttlSec : Nat) (st : List REntry) : List REntry :=
  { key := k, value := v, ttlMs := ttlSec * 1000 } ::
    st.filter (fun e => e.key != k)

/-- `RedisClientImpl.lock`: `SET key locked PX ttl NX` - set-if-absent,
atomically reporting whether the lock was acquired. -/
def rlockNx (k : String) (ttlMs : Nat) (st : List REntry) :
    Bool × List REntry :=
  if (rgetEntry k st).isSome then (false, st)
  else (true, { key := k, value := "locked", ttlMs := ttlMs } :: st)

/-- `RedisClientImpl.unlock`: delete the key. -/
def rdel (k : String) (st : List REntry) : List REntry :=
  st.filter (fun e => e.key != k)

/-- `IdempotencyService.check`, generic over the ambient state `σ` seen by the
callback (`getR`/`setR` project and replace its Redis component): return any
cached, truthy result without running the callback; otherwise take the 30 s
set-if-absent lock (failing with `IdempotencyException` when it is held); run
the callback; on success cache its serialized result for 86400 s and release
the lock; on error release the lock and rethrow without caching.  Results are
kept in serialized (string) form, so JSON round-tripping is the identity
here. -/
def idempotencyCheck {σ : Type} (getR : σ → List REntry)
    (setR : List REntry → σ → σ) (key : String)
    (fn : σ → Except UcError String × σ) (st : σ) :
    Except UcError String × σ :=
  let lockKey := "lock:idempotency:" ++ key
  let resultKey := "result:idempotency:" ++ key
  let proceed : σ → Except UcError String × σ := fun s0 =>
    let acq := rlockNx lockKey 30000 (getR s0)
    if acq.1 then
      let s1 := setR acq.2 s0
      match fn s1 with
      | (Except.ok result, s2) =>
        let s3 := setR (rsetEx resultKey result 86400 (getR s2)) s2
        let s4 := setR (rdel lockKey (getR s3)) s3
        (Except.ok result, s4)
      | (Except.error e, s2) => (Except.error e, setR (rdel lockKey (getR s2)) s2)
    else (Except.error UcError.inProgress, s0)
  match rget resultKey (getR st) with
  | some v => if v.length ≠ 0 then (Except.ok v, st) else proceed st
  | none => proceed st

/-- `IdempotencyService.check` as used directly against the Redis client. -/
def idempotencyCheckR (key : String)
    (fn : List REntry → Except UcError String × List REntry)
    (st : List REntry) : Except UcError String × List REntry :=
  idempotencyCheck (fun s => s) (fun r _ => r) key fn st

/-- The serialized (`JSON.stringify`) form of a `ResolveReturn`, as cached by
the idempotency engine and returned to the caller. -/
def encodeResolveReturn (r : ResolveReturn) : String :=
  "providerStatus=" ++ statusToString r.providerStatus
    ++ ";isVerified=" ++ (if r.isVerified then "true" else "false")
    ++ ";paymentId=" ++ r.paymentId
    ++ ";orderId=" ++ r.orderId
    ++ ";provider=" ++ providerToString r.provider

/-- `ResolvePaymentUseCase.execute` for an already-derived provider order id:
the resolve body wrapped by the idempotency engine, over a combined
Redis-plus-payment-store state. -/
def resolveExecute (now : Nat) (provider : PaymentProvider)
    (resolveResult : ResolveResponse) (providerOrderId : String)
    (key : String) (st : List REntry × List Payment) :
    Except UcError String × (List REntry × List Payment) :=
  idempotencyCheck (fun s => s.1) (fun r s => (r, s.2)) key
    (fun s =>
      match resolveCallback now provider resolveResult providerOrderId s.2 with
      | .error e => (.error e, s)
      | .ok (repo2, ret) => (.ok (encodeResolveReturn ret), (s.1, repo2)))
    st

/-- The normalized provider webhook event consumed from the bus.  The consumer
dereferences `providerPaymentId` with a non-null assertion, so it is embedded
as a plain string. -/
structure ProviderEvent where
  provider : PaymentProvider
  providerEventId : String
  providerEventType : String
  providerPaymentId : String
deriving DecidableEq

/-- A dispatch performed by the webhook consumer: which use case it invokes
and with which provider order id. -/
inductive DispatchAction where
  | dispatchSuccess (p : PaymentProvider) (providerOrderId : String)
  | dispatchFailure (p : PaymentProvider) (providerOrderId : String)
deriving DecidableEq

/-- `EventProcessRepositoryImpl`: the processed-event record key, built from
the provider event id alone (prefix `event:processed:`). -/
def processedKeyOf (eventId : String) : String :=
  "event:processed:" ++ eventId

/-- `EventProcessRepositoryImpl.isProcessed`: the stored value must be the
string `1`. -/
def isProcessed (st : List REntry) (eventId : String) : Bool :=
  rget (processedKeyOf eventId) st == some "1"

/-- `EventProcessRepositoryImpl.markAsProcessed`: set the record to `1` with a
30-day (2592000 s) expiry. -/
def markAsProcessed (st : List REntry) (eventId : String) : List REntry :=
  rsetEx (processedKeyOf eventId) "1" 2592000 st

/-- The `(provider, eventType)` dispatch table of `PaymentEventConsumer`
(`handleStripe` / `handlePaypal` / `handleRazorpay`); `none` for event types
the consumer only logs. -/
def route (e : ProviderEvent) : Option DispatchAction :=
  match e.provider with
  | .stripe =>
    if e.providerEventType = "checkout.session.completed"
        ∨ e.providerEventType = "payment_intent.succeeded" then
      some (.dispatchSuccess .stripe e.providerPaymentId)
    else if e.providerEventType = "payment_intent.payment_failed" then
      some (.dispatchFailure .stripe e.providerPaymentId)
    else none
  | .paypal =>
    if e.providerEventType = "PAYMENT.CAPTURE.COMPLETED" then
      some (.dispatchSuccess .paypal e.providerPaymentId)
    else if e.providerEventType = "PAYMENT.CAPTURE.DENIED"
        ∨ e.providerEventType = "PAYMENT.CAPTURE.FAILED" then
      some (.dispatchFailure .paypal e.providerPaymentId)
    else none
  | .razorpay =>
    if e.providerEventType = "payment.captured"
        ∨ e.providerEventType = "order.paid" then
      some (.dispatchSuccess .razorpay e.providerPaymentId)
    else if e.providerEventType = "payment.failed"
        ∨ e.providerEventType = "order.failed" then
      some (.dispatchFailure .razorpay e.providerPaymentId)
    else none

/-- `PaymentEventConsumer.handle`: skip when the processed record is present;
otherwise dispatch per the routing table (`runUC` performs the dispatched use
case); an unroutable event is only logged, and the handler then still marks
the record; a use case that throws is caught and the handler returns without
marking, so bus redelivery can retry.  Returns the Redis state and the list
of dispatches performed. -/
def consumerHandle (runUC : DispatchAction → Except UcError Unit)
    (e : ProviderEvent) (st : List REntry) : List REntry × List DispatchAction :=
  if isProcessed st e.providerEventId then (st, [])
  else
    match route e with
    | none => (markAsProcessed st e.providerEventId, [])
    | some a =>
      match runUC a with
      | .ok _ => (markAsProcessed st e.providerEventId, [a])
      | .error _ => (st, [a])

/-- JavaScript `Math.round` on exact rationals: half-way cases round up. -/
def jsRound (q : Rat) : Int :=
  Int.floor (q + 1/2)

/-- `normalizeAndConvertCurrency` from the shared currency utility, over exact
rationals: reject a negative amount or non-positive rate and factors, else
divide by the source subunit factor, apply the FX rate, multiply by the target
subunit factor and round. -/
def normalizeAndConvertCurrency (amountInSourceSubunit fxRate : Rat)
    (sourceSubunitToMajor targetMajorToSubunit : Rat) : Except String Int :=
  if amountInSourceSubunit < 0 ∨ fxRate ≤ 0 ∨ sourceSubunitToMajor ≤ 0
      ∨ targetMajorToSubunit ≤ 0 then
    .error "Invalid arguments: amounts and conversion factors must be positive numbers."
  else
    .ok (jsRound
      (amountInSourceSubunit / sourceSubunitToMajor * fxRate
        * targetMajorToSubunit))

/-! Concrete sample data used by counterexamples and witnesses. -/

/-- A payment already in the terminal SUCCESS state. -/
def samplePaymentSuccess : Payment :=
  { id := "p0", userId := "u0", orderId := "o0",
    amount := { amount := 5000, currency := "USD" }, status := .success,
    idempotencyKey := "k0", providerOrderId := some "po0", sessions := [],
    expiresAt := 600000, createdAt := 0, updatedAt := 0 }

/-- A SUCCESS payment reachable by provider order id `po1`. -/
def paymentC1 : Payment :=
  { id := "p1", userId := "u1", orderId := "o1",
    amount := { amount := 5000, currency := "USD" }, status := .success,
    idempotencyKey := "k1", providerOrderId := some "po1", sessions := [],
    expiresAt := 600000, createdAt := 0, updatedAt := 0 }

/-- A session whose own id coincides with its provider order id `po2`, so the
by-session-id lookup in the success use case finds it. -/
def sessionC2 : PaymentProviderSession :=
  { id := "po2", paymentId := "p2", provider := .stripe,
    providerOrderId := some "po2", providerPaymentId := none,
    providerAmount := 5000, providerCurrency := "USD", fxRate := 1,
    status := .approved, createdAt := 0, updatedAt := 0 }

/-- A PENDING payment carrying `sessionC2`, reachable by `po2`. -/
def paymentC2 : Payment :=
  { id := "p2", userId := "u2", orderId := "o2",
    amount := { amount := 5000, currency := "USD" }, status := .pending,
    idempotencyKey := "k2", providerOrderId := some "po2",
    sessions := [sessionC2], expiresAt := 600000, createdAt := 0,
    updatedAt := 0 }

/-- A RESOLVED payment with a session for provider order id `po5`. -/
def paymentC5 : Payment :=
  { id := "p5", userId := "u5", orderId := "o5",
    amount := { amount := 5000, currency := "USD" }, status := .resolved,
    idempotencyKey := "k5", providerOrderId := some "po5",
    sessions := [{ id := "s5", paymentId := "p5", provider := .razorpay,
                   providerOrderId := some "po5", providerPaymentId := none,
                   providerAmount := 5000, providerCurrency := "USD",
                   fxRate := 1, status := .created, createdAt := 0,
                   updatedAt := 0 }],
    expiresAt := 600000, createdAt := 0, updatedAt := 0 }

/-- A PENDING payment with session id `po6`, used for a cancel run. -/
def paymentC6 : Payment :=
  { id := "p6", userId := "u6", orderId := "o6",
    amount := { amount := 5000, currency := "USD" }, status := .pending,
    idempotencyKey := "k6", providerOrderId := some "po6",
    sessions := [{ id := "po6", paymentId := "p6", provider := .stripe,
                   providerOrderId := some "po6", providerPaymentId := none,
                   providerAmount := 5000, providerCurrency := "USD",
                   fxRate := 1, status := .created, createdAt := 0,
                   updatedAt := 0 }],
    expiresAt := 600000, createdAt := 0, updatedAt := 0 }

/-- A PENDING payment reachable by `po6b`, used for a success run. -/
def paymentC6b : Payment :=
  { id := "p6b", userId := "u6b", orderId := "o6b",
    amount := { amount := 5000, currency := "USD" }, status := .pending,
    idempotencyKey := "k6b", providerOrderId := some "po6b", sessions := [],
    expiresAt := 600000, createdAt := 0, updatedAt := 0 }

/-- A PENDING payment with a session for provider order id `po10`. -/
def paymentC10 : Payment :=
  { id := "p10", userId := "u10", orderId := "o10",
    amount := { amount := 5000, currency := "USD" }, status := .pending,
    idempotencyKey := "k10", providerOrderId := some "po10",
    sessions := [{ id := "s10", paymentId := "p10", provider := .razorpay,
                   providerOrderId := some "po10", providerPaymentId := none,
                   providerAmount := 5000, providerCurrency := "USD",
                   fxRate := 1, status := .created, createdAt := 0,
                   updatedAt := 0 }],
    expiresAt := 600000, createdAt := 0, updatedAt := 0 }

/-- A RESOLVED payment with a session for provider order id `po11`. -/
def paymentC10b : Payment :=
  { id := "p11", userId := "u11", orderId := "o11",
    amount := { amount := 5000, currency := "USD" }, status := .resolved,
    idempotencyKey := "k11", providerOrderId := some "po11",
    sessions := [{ id := "s11", paymentId := "p11", provider := .razorpay,
                   providerOrderId := some "po11", providerPaymentId := none,
                   providerAmount := 5000, providerCurrency := "USD",
                   fxRate := 1, status := .created, createdAt := 0,
                   updatedAt := 0 }],
    expiresAt := 600000, createdAt := 0, updatedAt := 0 }

/-- A Stripe success webhook event with provider event id `e1`. -/
def evStripeC7 : ProviderEvent :=
  { provider := .stripe, providerEventId := "e1",
    providerEventType := "checkout.session.completed",
    providerPaymentId := "poA" }

/-- A PayPal success webhook event with the same provider event id `e1`. -/
def evPaypalC7 : ProviderEvent :=
  { provider := .paypal, providerEventId := "e1",
    providerEventType := "PAYMENT.CAPTURE.COMPLETED",
    providerPaymentId := "poB" }

/-- A Razorpay success webhook event with provider event id `e2`. -/
def evRazorpayC7 : ProviderEvent :=
  { provider := .razorpay, providerEventId := "e2",
    providerEventType := "payment.captured", providerPaymentId := "poC" }

/-- A dispatched use case that always completes. -/
def ucOkC7 : DispatchAction → Except UcError Unit := fun _ => .ok ()

/-- The lock entry placed by `rlockNx` for an idempotency key. -/
def lockEntryOf (key : String) : REntry :=
  { key := "lock:idempotency:" ++ key, value := "locked", ttlMs := 30000 }

/-- The payment value the resolve body produces from a PENDING payment: the
matching session captured, the status RESOLVED, `updatedAt` stamped. -/
def resolvedUpdateOf (now : Nat) (poid : String) (p : Payment) : Payment :=
  { updateSessionStatusByPoid poid .captured now p with status := .resolved, updatedAt := now }

/-- The unverified resolve value returned for a payment by the resolve body. -/
def resolveReturnOf (ps : PaymentStatus) (provider : PaymentProvider) (p : Payment) : ResolveReturn :=
  { providerStatus := ps, isVerified := false, paymentId := p.id, orderId := p.orderId, provider := provider }

/-- The payment produced by `paymentCreate` for a one-minor-unit amount. -/
def createdPaymentC9 : Payment :=
  { id := "pid1", userId := "u1", orderId := "o1",
    amount := { amount := 1, currency := "USD" }, status := .pending,
    idempotencyKey := "k1", providerOrderId := none, sessions := [],
    expiresAt := 600000, createdAt := 0, updatedAt := 0 }

/-! Helper lemmas about the Redis association list and the idempotency
engine. -/

/-- The lock key and the result key of one idempotency key never collide. -/
theorem lockKey_ne_resultKey (key : String) :
    "lock:idempotency:" ++ key ≠ "result:idempotency:" ++ key := by
  intro h
  have h2 := congrArg String.length h
  rw [String.length_append, String.length_append] at h2
  have e1 : ("lock:idempotency:" : String).length = 17 := by decide
  have e2 : ("result:idempotency:" : String).length = 19 := by decide
  rw [e1, e2] at h2
  omega

/-- `List.find?` only depends on the pointwise behaviour of its predicate. -/
theorem find?_congrB {α : Type} (p q : α → Bool) (h : ∀ a, p a = q a) :
    ∀ l : List α, l.find? p = l.find? q := by
  intro l
  induction l with
  | nil => rfl
  | cons a t ih => simp [List.find?_cons, h a, ih]

/-- Reading back the key just set returns the new entry. -/
theorem rgetEntry_rsetEx_self (k v : String) (ttl : Nat) (st : List REntry) :
    rgetEntry k (rsetEx k v ttl st) =
      some { key := k, value := v, ttlMs := ttl * 1000 } := by
  simp [rgetEntry, rsetEx, List.find?_cons]

/-- Setting one key leaves every other key unchanged. -/
theorem rgetEntry_rsetEx_ne {j k : String} (h : j ≠ k) (v : String)
    (ttl : Nat) (st : List REntry) :
    rgetEntry j (rsetEx k v ttl st) = rgetEntry j st := by
  have hk : (k == j) = false := by simp [Ne.symm h]
  simp only [rgetEntry, rsetEx, List.find?_cons, hk]
  rw [List.find?_filter]
  apply find?_congrB
  intro e
  by_cases he : e.key = j
  · simp [he, h]
  · simp [he]

/-- Deleting a key removes it. -/
theorem rgetEntry_rdel_self (k : String) (st : List REntry) :
    rgetEntry k (rdel k st) = none := by
  simp only [rgetEntry, rdel]
  rw [List.find?_filter, List.find?_eq_none]
  intro e _
  by_cases he : e.key = k <;> simp [he]

/-- Deleting one key leaves every other key unchanged. -/
theorem rgetEntry_rdel_ne {j k : String} (h : j ≠ k) (st : List REntry) :
    rgetEntry j (rdel k st) = rgetEntry j st := by
  simp only [rgetEntry, rdel]
  rw [List.find?_filter]
  apply find?_congrB
  intro e
  by_cases he : e.key = j
  · simp [he, h]
  · simp [he]

/-- Value-level variant of `rgetEntry_rsetEx_self`. -/
theorem rget_rsetEx_self (k v : String) (ttl : Nat) (st : List REntry) :
    rget k (rsetEx k v ttl st) = some v := by
  simp [rget, rgetEntry_rsetEx_self]

/-- Value-level variant of `rgetEntry_rsetEx_ne`. -/
theorem rget_rsetEx_ne {j k : String} (h : j ≠ k) (v : String) (ttl : Nat)
    (st : List REntry) : rget j (rsetEx k v ttl st) = rget j st := by
  simp [rget, rgetEntry_rsetEx_ne h]

/-- Value-level variant of `rgetEntry_rdel_self`. -/
theorem rget_rdel_self (k : String) (st : List REntry) :
    rget k (rdel k st) = none := by
  simp [rget, rgetEntry_rdel_self]

/-- Value-level variant of `rgetEntry_rdel_ne`. -/
theorem rget_rdel_ne {j k : String} (h : j ≠ k) (st : List REntry) :
    rget j (rdel k st) = rget j st := by
  simp [rget, rgetEntry_rdel_ne h]

/-- Finding after an in-place update of the first match: when the update
preserves the predicate, the found element is exactly the updated one. -/
theorem find?_updateFirstBy {α : Type} (pred : α → Bool) (f : α → α)
    (hpf : ∀ a, pred (f a) = pred a) :
    ∀ l : List α, (updateFirstBy pred f l).find? pred = (l.find? pred).map f := by
  intro l
  induction l with
  | nil => rfl
  | cons a t ih =>
    by_cases ha : pred a = true
    · simp [updateFirstBy, ha, List.find?_cons, hpf a]
    · have ha2 : pred a = false := by simpa using ha
      simp [updateFirstBy, ha2, List.find?_cons, ih]

/-- After `updateSessionStatusByPoid` the session found by that provider order
id is the status-updated one. -/
theorem getSession_updateByPoid (poid : String) (stt : ProviderSessionStatus)
    (now : Nat) (p : Payment) :
    getSessionByProviderSessionId poid (updateSessionStatusByPoid poid stt now p)
      = (getSessionByProviderSessionId poid p).map (sessionUpdateStatus now stt) := by
  simp only [getSessionByProviderSessionId, updateSessionStatusByPoid]
  exact find?_updateFirstBy (fun s => s.providerOrderId == some poid)
    (sessionUpdateStatus now stt) (fun a => rfl) p.sessions

/-- Cached-result path of the idempotency engine: a present, truthy cached
value is returned as-is, the state is untouched and the callback is not
consulted (the result is the same for every callback). -/
theorem idempotencyCheck_cached {σ : Type} (getR : σ → List REntry)
    (setR : List REntry → σ → σ) (key : String)
    (fn : σ → Except UcError String × σ) (st : σ) (v : String)
    (hv : rget ("result:idempotency:" ++ key) (getR st) = some v)
    (hne : v.length ≠ 0) :
    idempotencyCheck getR setR key fn st = (Except.ok v, st) := by
  simp [idempotencyCheck, hv, hne]

/-- Contended path: no cached result and the lock key is already present, so
the engine fails with `InProgress` without consulting the callback. -/
theorem idempotencyCheck_locked {σ : Type} (getR : σ → List REntry)
    (setR : List REntry → σ → σ) (key : String)
    (fn : σ → Except UcError String × σ) (st : σ)
    (hres : rget ("result:idempotency:" ++ key) (getR st) = none)
    (hlock : (rgetEntry ("lock:idempotency:" ++ key) (getR st)).isSome = true) :
    idempotencyCheck getR setR key fn st = (Except.error UcError.inProgress, st) := by
  simp [idempotencyCheck, hres, rlockNx, hlock]

/-- Success path: lock acquired, callback returns normally; the result is
cached for 86400 s and the lock deleted. -/
theorem idempotencyCheck_ok {σ : Type} (getR : σ → List REntry)
    (setR : List REntry → σ → σ) (key : String)
    (fn : σ → Except UcError String × σ) (st : σ) (r : String) (st2 : σ)
    (hres : rget ("result:idempotency:" ++ key) (getR st) = none)
    (hlock : rgetEntry ("lock:idempotency:" ++ key) (getR st) = none)
    (hfn : fn (setR (lockEntryOf key :: getR st) st) = (Except.ok r, st2)) :
    idempotencyCheck getR setR key fn st =
      (Except.ok r,
        setR (rdel ("lock:idempotency:" ++ key)
            (getR (setR (rsetEx ("result:idempotency:" ++ key) r 86400 (getR st2)) st2)))
          (setR (rsetEx ("result:idempotency:" ++ key) r 86400 (getR st2)) st2)) := by
  simp only [lockEntryOf] at hfn
  simp [idempotencyCheck, hres, rlockNx, hlock, hfn]

/-- Failure path: lock acquired, callback throws; the lock is deleted, the
error propagates and nothing is cached by the engine. -/
theorem idempotencyCheck_err {σ : Type} (getR : σ → List REntry)
    (setR : List REntry → σ → σ) (key : String)
    (fn : σ → Except UcError String × σ) (st : σ) (e : UcError) (st2 : σ)
    (hres : rget ("result:idempotency:" ++ key) (getR st) = none)
    (hlock : rgetEntry ("lock:idempotency:" ++ key) (getR st) = none)
    (hfn : fn (setR (lockEntryOf key :: getR st) st) = (Except.error e, st2)) :
    idempotencyCheck getR setR key fn st =
      (Except.error e, setR (rdel ("lock:idempotency:" ++ key) (getR st2)) st2) := by
  simp only [lockEntryOf] at hfn
  simp [idempotencyCheck, hres, rlockNx, hlock, hfn]

/-! Claim theorems. -/

/-- Claim C3: the payment status transition relation allows exactly the edges
of the lifecycle diagram - from PENDING to RESOLVED, CANCELLED, EXPIRED,
FAILED or SUCCESS; from RESOLVED to SUCCESS or FAILED; no edge out of a
terminal state - and every attempt to traverse any other edge raises the
invalid-transition error, so a terminal status never changes again. -/
theorem C3_transition_table (s t : PaymentStatus) :
    (allowedTransition s t = true ↔
      ((s = .pending ∧ (t = .resolved ∨ t = .cancelled ∨ t = .expired
          ∨ t = .failed ∨ t = .success)) ∨
       (s = .resolved ∧ (t = .success ∨ t = .failed)))) ∧
    (isTerminalStatus s = true → allowedTransition s t = false) ∧
    (∀ (now : Nat) (p : Payment), p.status = s → allowedTransition s t = false →
      transitionTo now p t = .error (.badRequest
        ("Invalid status transition from " ++ statusToString s ++ " to "
          ++ statusToString t))) := by
  refine ⟨?_, ?_, ?_⟩
  · cases s <;> cases t <;> decide
  · cases s <;> cases t <;> decide
  · intro now p hp hna
    simp [transitionTo, hp, hna]

/-- Witness for C3: a SUCCESS payment refuses the edge back to PENDING. -/
theorem C3_transition_table_witness :
    transitionTo 0 samplePaymentSuccess .pending =
      .error (.badRequest ("Invalid status transition from "
        ++ statusToString .success ++ " to " ++ statusToString .pending)) :=
  (C3_transition_table .success .pending).2.2 0 samplePaymentSuccess rfl (by decide)

/-- Counterexample to claim C1: invoking the success use case on a payment
already in SUCCESS does not return OK - it throws `BadRequestException`.  The
claimed idempotent success-from-SUCCESS path does not exist in the code. -/
theorem C1_counterexample :
    successPaymentExecute "evt1" 5 .stripe "po1" [paymentC1] =
      .error (.badRequest "Cannot mark success payment in current status") := by
  decide

/-- Claim C1 (amended): for every payment already in SUCCESS, invoking the
success use case with its provider order id raises `BadRequestException`
without publishing any bus event and without persisting any change (the error
return carries no store update and no message). -/
theorem C1_success_on_success_raises (uuid : String) (now : Nat)
    (provider : PaymentProvider) (providerOrderId : String)
    (repo : List Payment) (p : Payment)
    (hfind : findByProviderOrderId providerOrderId repo = some p)
    (hstatus : p.status = .success) :
    successPaymentExecute uuid now provider providerOrderId repo =
      .error (.badRequest "Cannot mark success payment in current status") := by
  simp [successPaymentExecute, hfind, hstatus]

/-- Witness for C1. -/
theorem C1_success_on_success_raises_witness :
    successPaymentExecute "evt2" 7 .paypal "po1" [paymentC1] =
      .error (.badRequest "Cannot mark success payment in current status") :=
  C1_success_on_success_raises "evt2" 7 .paypal "po1" [paymentC1] paymentC1
    rfl rfl

/-- Claim C2, evaluated at the failing input: a success transition on a
PENDING payment whose session is found by the by-id lookup leaves that session
in status FAILED, not CAPTURED. -/
theorem C2_success_marks_session_failed :
    ((successPaymentExecute "evt3" 9 .stripe "po2" [paymentC2]).toOption.bind
        (fun r => r.1.head?.bind
          (fun p => (getProviderSessionById "po2" p).map (fun s => s.status))))
      = some .failed := by
  decide

/-- Claim C5, evaluated at the failing input: resolving a payment that is
already RESOLVED raises the invalid-transition error instead of completing
and leaving the status RESOLVED (the non-terminal guard lets RESOLVED reach
`markResolved`, and RESOLVED to RESOLVED is a forbidden edge). -/
theorem C5_resolve_on_resolved_raises :
    resolveCallback 11 .razorpay
        { providerStatus := .success, isVerified := true } "po5" [paymentC5] =
      .error (.badRequest "Invalid status transition from resolved to resolved") := by
  decide

/-- Claim C6, evaluated at the failing input: the `OrderPaymentFailedEvent`
envelope published by the cancel use case carries no `source` field at all,
while the success use case publishes `source = payment-service`. -/
theorem C6_cancel_envelope_lacks_source :
    ((cancelPaymentExecute "evt4" 13 .stripe "po6" true [paymentC6]).toOption.map
        (fun r => r.2.1.map (fun m => (m.value.eventType, m.value.source))))
      = some [("OrderPaymentFailedEvent", (none : Option String))] ∧
    ((successPaymentExecute "evt5" 13 .stripe "po6b" [paymentC6b]).toOption.map
        (fun r => r.2.map (fun m => (m.value.eventType, m.value.source))))
      = some [("OrderPaymentSuccessEvent", some "payment-service")] := by
  refine ⟨by decide, by decide⟩

/-- Claim C9: payment construction enforces a strictly positive amount - a
constructed payment always has amount above zero, a one-minor-unit amount is
accepted, and any non-positive amount is rejected. -/
theorem C9_amount_positive :
    (∀ (uuid : String) (now : Nat) (u o : String) (m : Money) (k : String)
        (e : Nat) (p : Payment),
      paymentCreate uuid now u o m k e = .ok p → 0 < p.amount.amount) ∧
    paymentCreate "pid1" 0 "u1" "o1" { amount := 1, currency := "USD" } "k1"
        600000 = .ok createdPaymentC9 ∧
    (∀ (uuid : String) (now : Nat) (u o : String) (m : Money) (k : String)
        (e : Nat) (p : Payment), m.amount ≤ 0 →
      paymentCreate uuid now u o m k e ≠ .ok p) := by
  refine ⟨?_, by decide, ?_⟩
  · intro uuid now u o m k e p h
    by_cases h1 : u = "" ∨ o = ""
    · simp [paymentCreate, h1] at h
    · by_cases h2 : m.amount ≤ 0
      · simp [paymentCreate, h1, h2] at h
      · simp [paymentCreate, h1, h2] at h
        rw [← h]
        show 0 < m.amount
        omega
  · intro uuid now u o m k e p hm h
    by_cases h1 : u = "" ∨ o = ""
    · simp [paymentCreate, h1] at h
    · simp [paymentCreate, h1, hm] at h

/-- Witness for C9. -/
theorem C9_amount_positive_witness : 0 < createdPaymentC9.amount.amount :=
  C9_amount_positive.1 "pid1" 0 "u1" "o1" { amount := 1, currency := "USD" }
    "k1" 600000 createdPaymentC9 (by decide)

/-- Claim C8: for every non-negative minor-unit amount and positive rate, the
conversion used by CreatePayment computes the rounded value of
amount divided by 100, times the rate, times 100; in particular 10000 minor
units at rate 1.08 (= 27/25) convert to 10800. -/
theorem C8_currency_conversion :
    (∀ a r : Rat, 0 ≤ a → 0 < r →
      normalizeAndConvertCurrency a r 100 100
        = .ok (jsRound (a / 100 * r * 100))) ∧
    normalizeAndConvertCurrency 10000 (27/25) 100 100 = .ok 10800 := by
  constructor
  · intro a r ha hr
    rw [normalizeAndConvertCurrency, if_neg]
    rintro (h | h | h | h) <;> linarith
  · rw [normalizeAndConvertCurrency, if_neg]
    · norm_num [jsRound]
    · rintro (h | h | h | h) <;> norm_num at h

/-- Witness for C8. -/
theorem C8_currency_conversion_witness :
    normalizeAndConvertCurrency 10000 (27/25) 100 100
      = .ok (jsRound (10000 / 100 * (27/25) * 100)) :=
  C8_currency_conversion.1 10000 (27/25) (by norm_num) (by norm_num)

/-- Claim C4: the idempotency engine returns a present (truthy) cached result
without invoking the callback; fails with `InProgress` when the set-if-absent
lock is held, without invoking the callback (in both cases the outcome is the
same for every callback and the state is untouched); on a normal callback
return it caches the result for 86400 s (24 h) and releases the lock; and on a
callback exception it releases the lock, propagates the error and adds no
cached result (the result key is exactly as the callback left it). -/
theorem C4_idempotency_engine (key : String)
    (fn : List REntry → Except UcError String × List REntry)
    (st : List REntry) :
    (∀ v, rget ("result:idempotency:" ++ key) st = some v → v.length ≠ 0 →
      idempotencyCheckR key fn st = (Except.ok v, st)) ∧
    (rget ("result:idempotency:" ++ key) st = none →
      (rgetEntry ("lock:idempotency:" ++ key) st).isSome = true →
      idempotencyCheckR key fn st = (Except.error UcError.inProgress, st)) ∧
    (∀ r st2, rget ("result:idempotency:" ++ key) st = none →
      rgetEntry ("lock:idempotency:" ++ key) st = none →
      fn (lockEntryOf key :: st) = (Except.ok r, st2) →
      idempotencyCheckR key fn st =
          (Except.ok r, rdel ("lock:idempotency:" ++ key)
            (rsetEx ("result:idempotency:" ++ key) r 86400 st2)) ∧
        rgetEntry ("result:idempotency:" ++ key)
            (rdel ("lock:idempotency:" ++ key)
              (rsetEx ("result:idempotency:" ++ key) r 86400 st2))
          = some { key := "result:idempotency:" ++ key, value := r,
                   ttlMs := 86400 * 1000 } ∧
        rget ("lock:idempotency:" ++ key)
            (rdel ("lock:idempotency:" ++ key)
              (rsetEx ("result:idempotency:" ++ key) r 86400 st2)) = none) ∧
    (∀ e st2, rget ("result:idempotency:" ++ key) st = none →
      rgetEntry ("lock:idempotency:" ++ key) st = none →
      fn (lockEntryOf key :: st) = (Except.error e, st2) →
      idempotencyCheckR key fn st =
          (Except.error e, rdel ("lock:idempotency:" ++ key) st2) ∧
        rget ("lock:idempotency:" ++ key)
          (rdel ("lock:idempotency:" ++ key) st2) = none ∧
        rget ("result:idempotency:" ++ key)
            (rdel ("lock:idempotency:" ++ key) st2)
          = rget ("result:idempotency:" ++ key) st2) := by
  refine ⟨?_, ?_, ?_, ?_⟩
  · intro v hv hne
    exact idempotencyCheck_cached (fun s => s) (fun r _ => r) key fn st v hv hne
  · intro h1 h2
    exact idempotencyCheck_locked (fun s => s) (fun r _ => r) key fn st h1 h2
  · intro r st2 h1 h2 hfn
    refine ⟨?_, ?_, ?_⟩
    · exact idempotencyCheck_ok (fun s => s) (fun r2 _ => r2) key fn st r st2
        h1 h2 hfn
    · rw [rgetEntry_rdel_ne (Ne.symm (lockKey_ne_resultKey key)),
        rgetEntry_rsetEx_self]
    · exact rget_rdel_self _ _
  · intro e st2 h1 h2 hfn
    refine ⟨?_, ?_, ?_⟩
    · exact idempotencyCheck_err (fun s => s) (fun r2 _ => r2) key fn st e st2
        h1 h2 hfn
    · exact rget_rdel_self _ _
    · exact rget_rdel_ne (Ne.symm (lockKey_ne_resultKey key)) st2

/-- Witness for C4: a fresh key with a succeeding callback caches the result
under the result key with the 24-hour TTL and leaves no lock behind. -/
theorem C4_idempotency_engine_witness :
    idempotencyCheckR "kw" (fun s => (Except.ok "res", s)) [] =
      (Except.ok "res",
        [{ key := "result:idempotency:kw", value := "res",
           ttlMs := 86400000 }]) := by
  have h := ((C4_idempotency_engine "kw" (fun s => (Except.ok "res", s))
    []).2.2.1 "res" [lockEntryOf "kw"] rfl rfl rfl).1
  rw [h]
  decide

/-- Counterexample to claim C7: the processed-event record is not keyed by
the provider and event id pair.  After a Stripe event with id e1 is handled,
a PayPal event with the same id e1 - whose pair was never dispatched and for
which no pair-keyed record could exist - is skipped without any dispatch,
because the record key `event:processed:e1` contains no provider. -/
theorem C7_counterexample :
    consumerHandle ucOkC7 evStripeC7 [] =
      (markAsProcessed [] "e1", [DispatchAction.dispatchSuccess .stripe "poA"]) ∧
    consumerHandle ucOkC7 evPaypalC7 (markAsProcessed [] "e1") =
      (markAsProcessed [] "e1", []) ∧
    processedKeyOf "e1" = "event:processed:e1" := by
  refine ⟨by decide, by decide, by decide⟩

/-- Claim C7 (amended): the webhook consumer dispatches at most once per
providerEventId (hence at most once per provider and event id pair): before
dispatching it checks the processed record keyed by
`event:processed:providerEventId` (the provider is not part of the key) and
skips when present; it writes the record only after the dispatched use case
completes without raising; after an error nothing is written so redelivery
retries; and once written any later event with the same id is skipped. -/
theorem C7_dedup_by_event_id :
    (∀ (runUC : DispatchAction → Except UcError Unit) (e : ProviderEvent)
        (st : List REntry), isProcessed st e.providerEventId = true →
      consumerHandle runUC e st = (st, [])) ∧
    (∀ (runUC : DispatchAction → Except UcError Unit) (e : ProviderEvent)
        (st : List REntry) (a : DispatchAction),
      isProcessed st e.providerEventId = false → route e = some a →
      runUC a = .ok () →
      consumerHandle runUC e st = (markAsProcessed st e.providerEventId, [a])) ∧
    (∀ (runUC : DispatchAction → Except UcError Unit) (e : ProviderEvent)
        (st : List REntry) (a : DispatchAction) (err : UcError),
      isProcessed st e.providerEventId = false → route e = some a →
      runUC a = .error err →
      consumerHandle runUC e st = (st, [a])) ∧
    (∀ (st : List REntry) (id0 : String),
      isProcessed (markAsProcessed st id0) id0 = true) ∧
    (∀ (runUC1 runUC2 : DispatchAction → Except UcError Unit)
        (e1 e2 : ProviderEvent) (st : List REntry) (a : DispatchAction),
      e1.providerEventId = e2.providerEventId →
      isProcessed st e1.providerEventId = false → route e1 = some a →
      runUC1 a = .ok () →
      (consumerHandle runUC2 e2 (consumerHandle runUC1 e1 st).1).2 = []) := by
  refine ⟨?_, ?_, ?_, ?_, ?_⟩
  · intro runUC e st h
    simp [consumerHandle, h]
  · intro runUC e st a h hr hu
    simp [consumerHandle, h, hr, hu]
  · intro runUC e st a err h hr hu
    simp [consumerHandle, h, hr, hu]
  · intro st id0
    simp [isProcessed, markAsProcessed, rget_rsetEx_self]
  · intro runUC1 runUC2 e1 e2 st a he h hr hu
    have hstep : consumerHandle runUC1 e1 st
        = (markAsProcessed st e1.providerEventId, [a]) := by
      simp [consumerHandle, h, hr, hu]
    rw [hstep]
    have hp : isProcessed (markAsProcessed st e1.providerEventId)
        e2.providerEventId = true := by
      rw [← he]
      simp [isProcessed, markAsProcessed, rget_rsetEx_self]
    simp [consumerHandle, hp]

/-- Witness for C7: a fresh Razorpay capture event is dispatched once and the
record is written. -/
theorem C7_dedup_by_event_id_witness :
    consumerHandle ucOkC7 evRazorpayC7 [] =
      (markAsProcessed [] "e2",
        [DispatchAction.dispatchSuccess .razorpay "poC"]) :=
  C7_dedup_by_event_id.2.1 ucOkC7 evRazorpayC7 []
    (DispatchAction.dispatchSuccess .razorpay "poC") rfl rfl rfl

/-- Counterexample to claim C10: on a non-terminal payment that is already
RESOLVED, a resolve with an unverified adapter result raises the
invalid-transition error (RESOLVED to RESOLVED is forbidden) instead of
completing without error. -/
theorem C10_counterexample :
    resolveExecute 4 .razorpay
        { providerStatus := .failed, isVerified := false } "po11" "rk2"
        ([], [paymentC10b]) =
      (Except.error
        (.badRequest "Invalid status transition from resolved to resolved"),
        ([], [paymentC10b])) := by
  decide

/-- Claim C10 (amended): a Razorpay resolve whose recomputed HMAC digest over
orderId|paymentId differs from the submitted signature reports FAILED and
unverified without throwing; and for every resolve on a PENDING payment where
the adapter reports unverified, the matching session is nevertheless set to
CAPTURED, the payment is transitioned to RESOLVED, the result is persisted
and cached under the idempotency key, the lock is released, and no error is
raised to the caller. -/
theorem C10_resolve_unverified_pending :
    (∀ (h : String → String → String) (secret orderId paymentId sig : String),
      h secret (orderId ++ "|" ++ paymentId) ≠ sig →
      razorpayResolvePayment h secret orderId paymentId sig =
        { providerStatus := .failed, isVerified := false }) ∧
    (∀ (now : Nat) (provider : PaymentProvider) (ps : PaymentStatus)
        (poid key : String) (redis : List REntry) (repo : List Payment)
        (p : Payment),
      rget ("result:idempotency:" ++ key) redis = none →
      rgetEntry ("lock:idempotency:" ++ key) redis = none →
      findByProviderOrderId poid repo = some p →
      p.status = .pending →
      (getSessionByProviderSessionId poid p).isSome = true →
      ∃ (p2 : Payment) (redisF : List REntry),
        resolveExecute now provider
            { providerStatus := ps, isVerified := false } poid key
            (redis, repo) =
          (Except.ok (encodeResolveReturn
              { providerStatus := ps, isVerified := false,
                paymentId := p.id, orderId := p.orderId,
                provider := provider }),
            (redisF, repoUpdate p2 repo)) ∧
        p2.status = .resolved ∧
        (getSessionByProviderSessionId poid p2).map (fun s => s.status)
          = some .captured ∧
        rget ("result:idempotency:" ++ key) redisF
          = some (encodeResolveReturn
              { providerStatus := ps, isVerified := false,
                paymentId := p.id, orderId := p.orderId,
                provider := provider }) ∧
        rget ("lock:idempotency:" ++ key) redisF = none) := by
  constructor
  · intro h secret orderId paymentId sig hne
    simp [razorpayResolvePayment, hne]
  · intro now provider ps poid key redis repo p hres hlock hfind hstatus hsess
    have hp1status : (updateSessionStatusByPoid poid .captured now p).status
        = PaymentStatus.pending := hstatus
    have hcb : resolveCallback now provider
        { providerStatus := ps, isVerified := false } poid repo
        = .ok (repoUpdate (resolvedUpdateOf now poid p) repo,
            { providerStatus := ps, isVerified := false, paymentId := p.id,
              orderId := p.orderId, provider := provider }) := by
      simp [resolveCallback, hfind, isTerminalState, isTerminalStatus,
        hp1status, markResolved, transitionTo, allowedTransition,
        resolvedUpdateOf]
      exact ⟨rfl, rfl⟩
    refine ⟨resolvedUpdateOf now poid p,
      rdel ("lock:idempotency:" ++ key)
        (rsetEx ("result:idempotency:" ++ key)
          (encodeResolveReturn (resolveReturnOf ps provider p))
          86400 (lockEntryOf key :: redis)), ?_, rfl, ?_, ?_, ?_⟩
    · exact idempotencyCheck_ok (fun s : List REntry × List Payment => s.1)
        (fun r s => (r, s.2)) key _ (redis, repo) _
        (lockEntryOf key :: redis,
          repoUpdate (resolvedUpdateOf now poid p) repo)
        hres hlock (by simp [hcb])
    · have hsget : getSessionByProviderSessionId poid (resolvedUpdateOf now poid p)
          = getSessionByProviderSessionId poid
            (updateSessionStatusByPoid poid .captured now p) := rfl
      rw [hsget, getSession_updateByPoid]
      obtain ⟨s, hs⟩ := Option.isSome_iff_exists.mp hsess
      rw [hs]
      simp [sessionUpdateStatus]
    · rw [rget_rdel_ne (Ne.symm (lockKey_ne_resultKey key)), rget_rsetEx_self]
      rfl
    · exact rget_rdel_self _ _

/-- Witness for C10. -/
theorem C10_resolve_unverified_pending_witness :
    (resolveExecute 3 .razorpay
        { providerStatus := .failed, isVerified := false } "po10" "rk"
        ([], [paymentC10])).1 =
      Except.ok (encodeResolveReturn
        { providerStatus := .failed, isVerified := false, paymentId := "p10",
          orderId := "o10", provider := .razorpay }) := by
  obtain ⟨p2, redisF, heq, -, -, -, -⟩ :=
    C10_resolve_unverified_pending.2 3 .razorpay .failed "po10" "rk" []
      [paymentC10] paymentC10 rfl rfl rfl rfl rfl
  rw [heq]
  rfl

end PaymentSrv
